import Mathlib

/-!
Verification of the people-counter core of `src/main.py`: the Frame Sampler,
Count Smoother and Announcement Gate implemented by the `PersonDetector`
class, shallowly embedded in Lean.  The detector model (YOLO) is an external
collaborator; one call of it on a sampled frame is represented by a
`ModelResult` value.
-/

/-- Outcome of one call of the YOLO detector on a sampled frame: the call can
raise an exception, return a result whose `boxes` field is `None`, or return a
list of detected boxes, each carrying its integer class id (`0` = person). -/
inductive ModelResult where
  | throws : ModelResult
  | boxesNone : ModelResult
  | boxes : List ℕ → ModelResult
deriving DecidableEq

/-- State of a `PersonDetector` instance (`__init__`, lines 104-110).  Python
integers are unbounded and signed, so the cooldown counters are embedded as
`ℤ`; the `detection_history` deque (`maxlen=5`) is a list, oldest first. -/
structure State where
  person_count : ℕ
  frame_count : ℕ
  detection_history : List ℕ
  last_announced_count : ℕ
  cooldown_frames : ℤ
  cooldown_length : ℤ
deriving DecidableEq

/-- The freshly constructed state (`__init__`): everything zero, history
empty, cooldown length 15. -/
def initState : State :=
  { person_count := 0, frame_count := 0, detection_history := [],
    last_announced_count := 0, cooldown_frames := 0, cooldown_length := 15 }

/-- Line 127: `count = sum(int(box.cls[0]) == 0 for box in results[0].boxes)`,
the number of detected boxes whose class id is 0 (person). -/
def countPersons (ids : List ℕ) : ℕ := (ids.filter (fun i => i == 0)).length

/-- Append to a `deque(maxlen=5)`: the oldest element is evicted when the
deque is full. -/
def pushWindow (h : List ℕ) (c : ℕ) : List ℕ :=
  let h2 := h ++ [c]
  if 5 < h2.length then h2.drop (h2.length - 5) else h2

/-- Insert into a sorted list, keeping it sorted (helper for `sortList`). -/
def insertSorted (x : ℕ) : List ℕ → List ℕ
  | [] => [x]
  | y :: ys => if x ≤ y then x :: y :: ys else y :: insertSorted x ys

/-- Sorting, as performed internally by `np.median`. -/
def sortList (l : List ℕ) : List ℕ := l.foldr insertSorted []

/-- `int(np.median(xs))` (line 132): `np.median` sorts, takes the middle
element (odd length) or the mean of the two middle elements (even length);
`int()` truncates toward zero, which on these nonnegative half-integer
medians is exactly natural division by 2. -/
def npMedianInt (l : List ℕ) : ℕ :=
  let s := sortList l
  let n := s.length
  if n % 2 = 1 then s.getD (n / 2) 0
  else (s.getD (n / 2 - 1) 0 + s.getD (n / 2) 0) / 2

/-- Lines 128-135 of `recv`, run only on sampled frames: clamp the raw count
to at most 5, append it to the history, recompute the median person count
(guarded, as in the code, by the history being nonempty), and tick the
cooldown. -/
def sampledUpdate (s : State) (rawCount : ℕ) : State :=
  let c := min rawCount 5
  let h := pushWindow s.detection_history c
  { s with
    detection_history := h,
    person_count := if h ≠ [] then npMedianInt h else s.person_count,
    cooldown_frames :=
      if 0 < s.cooldown_frames then s.cooldown_frames - 1 else s.cooldown_frames }

/-- `PersonDetector.recv` (lines 112-137).  The frame counter is incremented
first; when the incremented counter is even the detector runs (its outcome is
the `m` argument) and the sampled-frame update is applied.  A raised detector
exception escapes `recv` after the counter increment, so the call returns
`Except.error ()` and no frame reaches the sink; otherwise the input image is
returned unchanged. -/
def recv (Img : Type) (s : State) (frame : Img) (m : ModelResult) :
    State × Except Unit Img :=
  let s1 := { s with frame_count := s.frame_count + 1 }
  if s1.frame_count % 2 = 0 then
    match m with
    | ModelResult.throws => (s1, Except.error ())
    | ModelResult.boxesNone => (sampledUpdate s1 0, Except.ok frame)
    | ModelResult.boxes ids => (sampledUpdate s1 (countPersons ids), Except.ok frame)
  else (s1, Except.ok frame)

/-- The state effect of `recv`, which does not depend on the frame pixels. -/
def recvState (s : State) (m : ModelResult) : State := (recv Unit s () m).1

/-- `PersonDetector.can_announce` (lines 139-146): returns the new state and
whether an announcement fires. -/
def can_announce (s : State) (current_count : ℕ) : State × Bool :=
  if current_count ≠ s.last_announced_count ∧ 0 < current_count ∧
      s.cooldown_frames = 0 then
    ({ s with last_announced_count := current_count,
              cooldown_frames := s.cooldown_length }, true)
  else (s, false)

/-- One operation on a detector instance: a frame arriving at `recv` (with
the detector outcome it would produce if sampled), or a polling-loop call of
`can_announce` with some current count. -/
inductive Op where
  | recvOp : ModelResult → Op
  | annOp : ℕ → Op
deriving DecidableEq

/-- State transition of a single operation. -/
def step (s : State) (o : Op) : State :=
  match o with
  | Op.recvOp m => recvState s m
  | Op.annOp c => (can_announce s c).1

/-- Running a sequence of operations from a state. -/
def run (s : State) (ops : List Op) : State := ops.foldl step s

/-- The counts of the announce events fired along a sequence of operations,
in order. -/
def gateEvents (s : State) : List Op → List ℕ
  | [] => []
  | Op.recvOp m :: rest => gateEvents (recvState s m) rest
  | Op.annOp c :: rest =>
    let r := can_announce s c
    if r.2 then c :: gateEvents r.1 rest else gateEvents r.1 rest

/-- Feeding a sequence of raw per-sample counts to the Count Smoother
(the sampled-frame part of `recv`), starting from a fresh detector. -/
def smootherRun (l : List ℕ) : State := l.foldl sampledUpdate initState

/-- The last `n` elements of a list. -/
def lastN (n : ℕ) (l : List α) : List α := l.drop (l.length - n)

/-- Median as the specification words it: even-length windows average the two
middle elements and then round to the NEAREST integer (ties rounded up; note
that banker's rounding agrees on every half-integer with odd integral part,
such as 1.5).  This definition follows the spec's words, to be compared with
`npMedianInt`, which follows the code. -/
def specMedianRoundNearest (l : List ℕ) : ℕ :=
  let s := sortList l
  let n := s.length
  if n % 2 = 1 then s.getD (n / 2) 0
  else (s.getD (n / 2 - 1) 0 + s.getD (n / 2) 0 + 1) / 2

/-- A gate state in which count 2 was announced earlier and the cooldown has
fully expired (e.g. 15 sampled frames after the announcement). -/
def c1ex : State :=
  { person_count := 2, frame_count := 32, detection_history := [2, 2, 2, 2, 2],
    last_announced_count := 2, cooldown_frames := 0, cooldown_length := 15 }

/-- A gate state with an active cooldown of 3 ticks (count 1 was announced 12
sampled frames ago) while the stable count has moved on to 2. -/
def c3ex : State :=
  { person_count := 2, frame_count := 27, detection_history := [2, 2, 2, 2, 2],
    last_announced_count := 1, cooldown_frames := 3, cooldown_length := 15 }

/-- A gate state in the middle of a cooldown, for the C4 witness. -/
def c4ex : State :=
  { person_count := 1, frame_count := 5, detection_history := [1, 1],
    last_announced_count := 1, cooldown_frames := 13, cooldown_length := 15 }

/-- A concrete operation sequence for the C4 witness: two persons enter one
after the other and the poller keeps asking. -/
def c4ops : List Op :=
  [Op.recvOp (ModelResult.boxes [0]), Op.recvOp (ModelResult.boxes [0]),
   Op.annOp 1, Op.annOp 1, Op.recvOp (ModelResult.boxes [0, 0]), Op.annOp 2]

/-- A gate state right in the middle of an active cooldown. -/
def c5ex : State :=
  { person_count := 1, frame_count := 9, detection_history := [1, 1, 1, 1, 1],
    last_announced_count := 1, cooldown_frames := 11, cooldown_length := 15 }

/-- A detector state whose next frame is sampled (incremented counter 2). -/
def c6ex : State :=
  { person_count := 0, frame_count := 1, detection_history := [],
    last_announced_count := 0, cooldown_frames := 0, cooldown_length := 15 }

/-- A detector state with one prior observation whose next frame is sampled. -/
def c7ex : State :=
  { person_count := 1, frame_count := 3, detection_history := [1],
    last_announced_count := 1, cooldown_frames := 14, cooldown_length := 15 }

/-! ### Helper lemmas about the gate and the frame handler -/

lemma can_announce_of_true (s : State) (c : ℕ)
    (h : (can_announce s c).2 = true) :
    (can_announce s c).1 =
      { s with last_announced_count := c, cooldown_frames := s.cooldown_length }
    ∧ c ≠ s.last_announced_count ∧ 0 < c ∧ s.cooldown_frames = 0 := by
  unfold can_announce at *
  split at h
  case isTrue hc => exact ⟨by rw [if_pos hc], hc⟩
  case isFalse => simp at h

lemma can_announce_of_false (s : State) (c : ℕ)
    (h : (can_announce s c).2 = false) : (can_announce s c).1 = s := by
  unfold can_announce at *
  split at h
  case isTrue => simp at h
  case isFalse hc => rw [if_neg hc]

lemma can_announce_false_of_cooldown (s : State) (c : ℕ)
    (h : 0 < s.cooldown_frames) : can_announce s c = (s, false) := by
  unfold can_announce
  split
  · omega
  · rfl

lemma recvState_cases (s : State) (m : ModelResult) :
    recvState s m =
      if (s.frame_count + 1) % 2 = 0 then
        match m with
        | ModelResult.throws => { s with frame_count := s.frame_count + 1 }
        | ModelResult.boxesNone =>
            sampledUpdate { s with frame_count := s.frame_count + 1 } 0
        | ModelResult.boxes ids =>
            sampledUpdate { s with frame_count := s.frame_count + 1 } (countPersons ids)
      else { s with frame_count := s.frame_count + 1 } := by
  cases m <;>
    (unfold recvState recv
     by_cases h : (s.frame_count + 1) % 2 = 0 <;> simp [h])

lemma sampledUpdate_last (s : State) (r : ℕ) :
    (sampledUpdate s r).last_announced_count = s.last_announced_count := rfl

lemma sampledUpdate_len (s : State) (r : ℕ) :
    (sampledUpdate s r).cooldown_length = s.cooldown_length := rfl

lemma recvState_last (s : State) (m : ModelResult) :
    (recvState s m).last_announced_count = s.last_announced_count := by
  rw [recvState_cases]
  split
  · cases m <;> rfl
  · rfl

lemma recvState_len (s : State) (m : ModelResult) :
    (recvState s m).cooldown_length = s.cooldown_length := by
  rw [recvState_cases]
  split
  · cases m <;> rfl
  · rfl

lemma sampledUpdate_cooldown (s : State) (r : ℕ) :
    (sampledUpdate s r).cooldown_frames =
      if 0 < s.cooldown_frames then s.cooldown_frames - 1 else s.cooldown_frames := rfl

/-! ### Claim C1: gate behaviour on stable count 0 -/

/-- C1 counterexample: called with stable count 0 and no active cooldown, the
gate returns false but does NOT reset `last_announced_count` to 0 — it stays
at the previously announced count 2, so the claimed reset does not happen. -/
theorem c1_counterexample :
    (can_announce c1ex 0).2 = false ∧
    (can_announce c1ex 0).1.last_announced_count = 2 ∧
    ¬((can_announce c1ex 0).1.last_announced_count = 0) := by decide

/-- C1 amended: a call of the gate with stable count 0 returns false and
leaves the whole state — in particular `last_announced_count` — unchanged;
consequently a later return to the same count as `last_announced_count` does
not fire again. -/
theorem c1_zero_count_no_fire_state_unchanged :
    (∀ s : State, can_announce s 0 = (s, false)) ∧
    (∀ s : State, (can_announce s s.last_announced_count).2 = false) := by
  constructor
  · intro s
    simp [can_announce]
  · intro s
    simp [can_announce]

/-! ### Claim C3: behaviour of the gate while the cooldown is active -/

/-- C3 counterexample: with `cooldown_frames = 3`, a `can_announce` call
returns false but does not decrement the cooldown — it stays 3, not 2.  The
decrement claimed for the gate call actually lives in `recv`. -/
theorem c3_counterexample :
    (can_announce c3ex 2).2 = false ∧
    (can_announce c3ex 2).1.cooldown_frames = 3 ∧
    ¬((can_announce c3ex 2).1.cooldown_frames = 3 - 1) := by decide

/-- C3 amended: while `cooldown_frames > 0`, a `can_announce` call returns
false and leaves the state (in particular the cooldown) unchanged; the
decrement by one tick is performed by `recv` on each sampled frame whose
detector call does not raise. -/
theorem c3_cooldown_suppresses_decrement_in_recv :
    (∀ (s : State) (c : ℕ), 0 < s.cooldown_frames → can_announce s c = (s, false)) ∧
    (∀ (s : State) (m : ModelResult), m ≠ ModelResult.throws →
      (s.frame_count + 1) % 2 = 0 → 0 < s.cooldown_frames →
      (recvState s m).cooldown_frames = s.cooldown_frames - 1) := by
  constructor
  · intro s c h
    exact can_announce_false_of_cooldown s c h
  · intro s m hm hs hc
    rw [recvState_cases, if_pos hs]
    cases m with
    | throws => exact absurd rfl hm
    | boxesNone => simp [sampledUpdate_cooldown, hc]
    | boxes ids => simp [sampledUpdate_cooldown, hc]

/-- Witness for the amended C3 at the concrete state `c3ex`. -/
theorem c3_witness :
    can_announce c3ex 2 = (c3ex, false) ∧
    (recvState c3ex ModelResult.boxesNone).cooldown_frames = c3ex.cooldown_frames - 1 :=
  ⟨c3_cooldown_suppresses_decrement_in_recv.1 c3ex 2 (by decide),
   c3_cooldown_suppresses_decrement_in_recv.2 c3ex ModelResult.boxesNone
     (by decide) (by decide) (by decide)⟩

/-! ### Claim C8: a non-firing gate call leaves the state unchanged -/

/-- C8: whenever `can_announce` returns false, the detector state is exactly
the one before the call; `last_announced_count` and `cooldown_frames` mutate
only on a call that fires. -/
theorem c8_false_return_state_unchanged (s : State) (c : ℕ)
    (h : (can_announce s c).2 = false) : (can_announce s c).1 = s :=
  can_announce_of_false s c h

/-- Witness for C8 at the fresh state with count 0. -/
theorem c8_witness :
    (can_announce initState 0).2 = false ∧ (can_announce initState 0).1 = initState :=
  ⟨by decide, c8_false_return_state_unchanged initState 0 (by decide)⟩

/-! ### Claim C10: effect of a non-sampled frame -/

/-- C10: on a frame whose incremented counter is odd, `recv` only increments
`frame_count` — history, person count, cooldown and last announced count are
untouched — and returns the input image unchanged. -/
theorem c10_unsampled_frame_effect (Img : Type) (s : State) (img : Img)
    (m : ModelResult) (h : (s.frame_count + 1) % 2 = 1) :
    recv Img s img m = ({ s with frame_count := s.frame_count + 1 }, Except.ok img) := by
  have h0 : ¬((s.frame_count + 1) % 2 = 0) := by omega
  cases m <;> simp [recv, h0]

/-- Witness for C10 at the fresh state (first frame is not sampled). -/
theorem c10_witness :
    (initState.frame_count + 1) % 2 = 1 ∧
    recv Unit initState () ModelResult.boxesNone =
      ({ initState with frame_count := initState.frame_count + 1 }, Except.ok ()) :=
  ⟨by decide, c10_unsampled_frame_effect Unit initState () ModelResult.boxesNone (by decide)⟩

/-! ### Claim C5: cooldown reset on firing and tick-by-tick decrement -/

/-- C5: a firing gate call sets `cooldown_frames` to exactly the configured
`cooldown_length`; every subsequent non-raising sampled-frame tick decrements
it by exactly one while it is positive; at zero a tick leaves it at zero; and
a non-firing gate call never changes it. -/
theorem c5_cooldown_reset_and_tick :
    (∀ (s : State) (c : ℕ), (can_announce s c).2 = true →
      (can_announce s c).1.cooldown_frames = s.cooldown_length) ∧
    (∀ (s : State) (m : ModelResult), m ≠ ModelResult.throws →
      (s.frame_count + 1) % 2 = 0 → 0 < s.cooldown_frames →
      (recvState s m).cooldown_frames = s.cooldown_frames - 1) ∧
    (∀ (s : State) (m : ModelResult), s.cooldown_frames = 0 →
      (recvState s m).cooldown_frames = 0) ∧
    (∀ (s : State) (c : ℕ), (can_announce s c).2 = false →
      (can_announce s c).1.cooldown_frames = s.cooldown_frames) := by
  refine ⟨?_, ?_, ?_, ?_⟩
  · intro s c h
    rw [(can_announce_of_true s c h).1]
  · intro s m hm hs hc
    rw [recvState_cases, if_pos hs]
    cases m with
    | throws => exact absurd rfl hm
    | boxesNone => simp [sampledUpdate_cooldown, hc]
    | boxes ids => simp [sampledUpdate_cooldown, hc]
  · intro s m hc
    rw [recvState_cases]
    split
    · cases m with
      | throws => exact hc
      | boxesNone => rw [sampledUpdate_cooldown]; simp [hc]
      | boxes ids => rw [sampledUpdate_cooldown]; simp [hc]
    · exact hc
  · intro s c h
    rw [can_announce_of_false s c h]

/-- Witness for C5: the first announcement from the fresh state resets the
cooldown to 15; at `c5ex` a sampled tick decrements 11 to 10 and a repeated
count is suppressed without touching the cooldown. -/
theorem c5_witness :
    (can_announce initState 1).2 = true ∧
    (can_announce initState 1).1.cooldown_frames = initState.cooldown_length ∧
    (recvState c5ex ModelResult.boxesNone).cooldown_frames = c5ex.cooldown_frames - 1 ∧
    (recvState initState ModelResult.boxesNone).cooldown_frames = 0 ∧
    (can_announce c5ex 1).2 = false ∧
    (can_announce c5ex 1).1.cooldown_frames = c5ex.cooldown_frames :=
  ⟨by decide,
   c5_cooldown_reset_and_tick.1 initState 1 (by decide),
   c5_cooldown_reset_and_tick.2.1 c5ex ModelResult.boxesNone (by decide) (by decide) (by decide),
   c5_cooldown_reset_and_tick.2.2.1 initState ModelResult.boxesNone (by decide),
   by decide,
   c5_cooldown_reset_and_tick.2.2.2 c5ex 1 (by decide)⟩

/-! ### Claim C6: the frame sampler -/

/-- C6 counterexample: on a sampled frame whose detector call raises, `recv`
propagates the exception and NO frame is passed through to the sink, so
"every frame, sampled or not, is passed through unchanged" fails. -/
theorem c6_counterexample :
    (recv Unit c6ex () ModelResult.throws).2 = Except.error () ∧
    ¬((recv Unit c6ex () ModelResult.throws).2 = Except.ok ()) := by
  refine ⟨rfl, fun h => ?_⟩
  rw [show (recv Unit c6ex () ModelResult.throws).2 = Except.error () from rfl] at h
  exact Except.noConfusion h

/-- C6 amended: the frame counter is incremented on every frame; a frame is
forwarded to detection iff the incremented counter is even (stride 2): on an
odd count `recv` ignores the detector and passes the frame through unchanged,
and on an even count the detector outcome enters the smoothing pipeline and
the frame is still passed through unchanged — provided the detector call does
not raise (a raising call yields no output frame, see the counterexample). -/
theorem c6_sampler_stride_and_passthrough :
    (∀ (Img : Type) (s : State) (f : Img) (m : ModelResult),
      (recv Img s f m).1.frame_count = s.frame_count + 1) ∧
    (∀ (Img : Type) (s : State) (f : Img) (m : ModelResult),
      ¬((s.frame_count + 1) % 2 = 0) →
      recv Img s f m = ({ s with frame_count := s.frame_count + 1 }, Except.ok f)) ∧
    (∀ (Img : Type) (s : State) (f : Img) (ids : List ℕ),
      (s.frame_count + 1) % 2 = 0 →
      (recv Img s f (ModelResult.boxes ids)).1 =
        sampledUpdate { s with frame_count := s.frame_count + 1 } (countPersons ids) ∧
      (recv Img s f (ModelResult.boxes ids)).2 = Except.ok f) ∧
    (∀ (Img : Type) (s : State) (f : Img),
      (s.frame_count + 1) % 2 = 0 →
      (recv Img s f ModelResult.boxesNone).2 = Except.ok f) := by
  refine ⟨?_, ?_, ?_, ?_⟩
  · intro Img s f m
    cases m <;>
      (unfold recv
       by_cases h : (s.frame_count + 1) % 2 = 0 <;> simp [h, sampledUpdate])
  · intro Img s f m h
    cases m <;> simp [recv, h]
  · intro Img s f ids h
    constructor <;> simp [recv, h]
  · intro Img s f h
    simp [recv, h]

/-- Witness for the amended C6: frame 2 from `c6ex` is sampled and a detected
person enters the window; frame 1 from the fresh state is not sampled. -/
theorem c6_witness :
    (recv Unit c6ex () (ModelResult.boxes [0])).1.frame_count = c6ex.frame_count + 1 ∧
    recv Unit initState () ModelResult.boxesNone =
      ({ initState with frame_count := initState.frame_count + 1 }, Except.ok ()) ∧
    ((recv Unit c6ex () (ModelResult.boxes [0])).1 =
        sampledUpdate { c6ex with frame_count := c6ex.frame_count + 1 }
          (countPersons [0]) ∧
      (recv Unit c6ex () (ModelResult.boxes [0])).2 = Except.ok ()) ∧
    (recv Unit c6ex () ModelResult.boxesNone).2 = Except.ok () :=
  ⟨c6_sampler_stride_and_passthrough.1 Unit c6ex () (ModelResult.boxes [0]),
   c6_sampler_stride_and_passthrough.2.1 Unit initState () ModelResult.boxesNone (by decide),
   c6_sampler_stride_and_passthrough.2.2.1 Unit c6ex () [0] (by decide),
   c6_sampler_stride_and_passthrough.2.2.2 Unit c6ex () (by decide)⟩

/-! ### Claim C7: detector failure on a sampled frame -/

/-- C7 counterexample: `recv` has no try/except around the model call, so on
a sampled frame whose inference raises, the exception propagates out of
`recv` and no raw count (in particular no zero) is recorded: the history
stays `[1]` instead of becoming `[1, 0]`. -/
theorem c7_counterexample :
    (recv Unit c7ex () ModelResult.throws).2 = Except.error () ∧
    (recv Unit c7ex () ModelResult.throws).1.detection_history = [1] ∧
    ¬((recv Unit c7ex () ModelResult.throws).1.detection_history =
        pushWindow c7ex.detection_history 0) := by
  refine ⟨rfl, rfl, ?_⟩
  decide

/-- C7 amended: when the detector RETURNS but with no detections (a `None`
boxes field, or only boxes of non-person classes), the sampled frame records
a raw count of zero and processing continues normally; a RAISED detector
exception, however, is not caught and propagates out of `recv`. -/
theorem c7_no_detections_zero_count :
    (∀ (Img : Type) (s : State) (f : Img), (s.frame_count + 1) % 2 = 0 →
      (recv Img s f ModelResult.boxesNone).1.detection_history =
        pushWindow s.detection_history 0 ∧
      (recv Img s f ModelResult.boxesNone).2 = Except.ok f) ∧
    (∀ ids : List ℕ, (∀ i ∈ ids, i ≠ 0) → countPersons ids = 0) ∧
    (∀ (Img : Type) (s : State) (f : Img), (s.frame_count + 1) % 2 = 0 →
      (recv Img s f ModelResult.throws).2 = Except.error ()) := by
  refine ⟨?_, ?_, ?_⟩
  · intro Img s f h
    constructor <;> simp [recv, h, sampledUpdate, pushWindow]
  · intro ids h
    have : ids.filter (fun i => i == 0) = [] := by
      rw [List.filter_eq_nil_iff]
      intro a ha
      simpa using h a ha
    simp [countPersons, this]
  · intro Img s f h
    simp [recv, h]

/-- Witness for the amended C7 at the concrete state `c7ex`. -/
theorem c7_witness :
    ((recv Unit c7ex () ModelResult.boxesNone).1.detection_history =
        pushWindow c7ex.detection_history 0 ∧
      (recv Unit c7ex () ModelResult.boxesNone).2 = Except.ok ()) ∧
    countPersons [39, 56] = 0 ∧
    (recv Unit c7ex () ModelResult.throws).2 = Except.error () :=
  ⟨c7_no_detections_zero_count.1 Unit c7ex () (by decide),
   c7_no_detections_zero_count.2.1 [39, 56] (by decide),
   c7_no_detections_zero_count.2.2 Unit c7ex () (by decide)⟩

/-! ### Claim C9: the cooldown counter never goes negative -/

lemma step_len (s : State) (o : Op) : (step s o).cooldown_length = s.cooldown_length := by
  cases o with
  | recvOp m => exact recvState_len s m
  | annOp c =>
    show (can_announce s c).1.cooldown_length = s.cooldown_length
    cases hb : (can_announce s c).2 with
    | false => rw [can_announce_of_false s c hb]
    | true => rw [(can_announce_of_true s c hb).1]

lemma step_cooldown_nonneg (s : State) (o : Op)
    (h : 0 ≤ s.cooldown_frames) (hl : 0 ≤ s.cooldown_length) :
    0 ≤ (step s o).cooldown_frames := by
  cases o with
  | recvOp m =>
    show 0 ≤ (recvState s m).cooldown_frames
    rw [recvState_cases]
    split
    · cases m with
      | throws => exact h
      | boxesNone => simp only [sampledUpdate_cooldown]; split <;> omega
      | boxes ids => simp only [sampledUpdate_cooldown]; split <;> omega
    · exact h
  | annOp c =>
    show 0 ≤ (can_announce s c).1.cooldown_frames
    cases hb : (can_announce s c).2 with
    | false => rw [can_announce_of_false s c hb]; exact h
    | true => rw [(can_announce_of_true s c hb).1]; exact hl

lemma run_cooldown_nonneg (ops : List Op) : ∀ s : State,
    0 ≤ s.cooldown_frames → 0 ≤ s.cooldown_length →
    0 ≤ (run s ops).cooldown_frames := by
  induction ops with
  | nil => intro s h _; exact h
  | cons o rest ih =>
    intro s h hl
    have h1 := step_cooldown_nonneg s o h hl
    have h2 : (step s o).cooldown_length = s.cooldown_length := step_len s o
    simpa [run, List.foldl_cons] using ih (step s o) h1 (h2 ▸ hl)

/-- C9: from the initial state, `cooldown_frames` is never negative: each
single operation preserves nonnegativity (given the nonnegative configured
cooldown length, which no operation ever changes), and along every operation
sequence from `initState` the cooldown stays nonnegative. -/
theorem c9_cooldown_nonneg :
    (∀ (s : State) (o : Op), 0 ≤ s.cooldown_frames → 0 ≤ s.cooldown_length →
      0 ≤ (step s o).cooldown_frames) ∧
    (∀ ops : List Op, 0 ≤ (run initState ops).cooldown_frames) := by
  constructor
  · exact step_cooldown_nonneg
  · intro ops
    exact run_cooldown_nonneg ops initState (by decide) (by decide)

/-- Witness for C9: a firing announcement followed by a sampled frame keeps
the cooldown nonnegative. -/
theorem c9_witness :
    0 ≤ initState.cooldown_frames ∧ 0 ≤ initState.cooldown_length ∧
    0 ≤ (step initState (Op.annOp 1)).cooldown_frames ∧
    0 ≤ (run initState [Op.annOp 1, Op.recvOp ModelResult.boxesNone]).cooldown_frames :=
  ⟨by decide, by decide,
   c9_cooldown_nonneg.1 initState (Op.annOp 1) (by decide) (by decide),
   c9_cooldown_nonneg.2 [Op.annOp 1, Op.recvOp ModelResult.boxesNone]⟩

/-! ### Claim C4: no repeated announcement, no firing during cooldown -/

lemma gateEvents_chain_aux (ops : List Op) : ∀ s : State,
    List.Chain' (fun a b => a ≠ b) (gateEvents s ops) ∧
    (∀ h, (gateEvents s ops).head? = some h → h ≠ s.last_announced_count) := by
  induction ops with
  | nil =>
    intro s
    exact ⟨List.chain'_nil, fun h hh => by simp [gateEvents] at hh⟩
  | cons o rest ih =>
    intro s
    cases o with
    | recvOp m =>
      have heq : gateEvents s (Op.recvOp m :: rest) = gateEvents (recvState s m) rest := rfl
      rw [heq]
      refine ⟨(ih (recvState s m)).1, ?_⟩
      intro h hh
      have := (ih (recvState s m)).2 h hh
      rwa [recvState_last] at this
    | annOp c =>
      cases hb : (can_announce s c).2 with
      | false =>
        have heq : gateEvents s (Op.annOp c :: rest) = gateEvents (can_announce s c).1 rest := by
          simp [gateEvents, hb]
        rw [heq, can_announce_of_false s c hb]
        exact ih s
      | true =>
        obtain ⟨hfst, hne, _, _⟩ := can_announce_of_true s c hb
        have hlast : (can_announce s c).1.last_announced_count = c := by rw [hfst]
        have heq : gateEvents s (Op.annOp c :: rest) =
            c :: gateEvents (can_announce s c).1 rest := by
          simp [gateEvents, hb]
        rw [heq]
        constructor
        · rw [List.chain'_cons']
          refine ⟨?_, (ih (can_announce s c).1).1⟩
          intro b hbm
          have hb2 := (ih (can_announce s c).1).2 b (Option.mem_def.1 hbm)
          rw [hlast] at hb2
          exact fun hcb => hb2 hcb.symm
        · intro h hh
          have hc : c = h := by simpa using hh
          subst hc
          exact hne

/-- C4: along every operation sequence, the counts of successive announce
events always differ — the gate never fires twice for the same
`last_announced_count` without an intervening different announcement — and a
gate call made while `cooldown_frames > 0` never fires. -/
theorem c4_no_repeat_no_fire_in_cooldown :
    (∀ (s : State) (ops : List Op),
      List.Chain' (fun a b => a ≠ b) (gateEvents s ops)) ∧
    (∀ (s : State) (c : ℕ), 0 < s.cooldown_frames → (can_announce s c).2 = false) := by
  constructor
  · intro s ops
    exact (gateEvents_chain_aux ops s).1
  · intro s c h
    rw [can_announce_false_of_cooldown s c h]

/-- Witness for C4 on the concrete trace `c4ops` and the concrete state `c4ex`. -/
theorem c4_witness :
    List.Chain' (fun a b => a ≠ b) (gateEvents initState c4ops) ∧
    (can_announce c4ex 2).2 = false :=
  ⟨c4_no_repeat_no_fire_in_cooldown.1 initState c4ops,
   c4_no_repeat_no_fire_in_cooldown.2 c4ex 2 (by decide)⟩

/-! ### Claim C2: the Count Smoother -/

lemma sampledUpdate_history (s : State) (r : ℕ) :
    (sampledUpdate s r).detection_history = pushWindow s.detection_history (min r 5) := rfl

lemma sampledUpdate_person (s : State) (r : ℕ) :
    (sampledUpdate s r).person_count =
      if pushWindow s.detection_history (min r 5) ≠ [] then
        npMedianInt (pushWindow s.detection_history (min r 5))
      else s.person_count := rfl

lemma pushWindow_eq_lastN (h : List ℕ) (c : ℕ) :
    pushWindow h c = lastN 5 (h ++ [c]) := by
  show (if 5 < (h ++ [c]).length then (h ++ [c]).drop ((h ++ [c]).length - 5)
        else h ++ [c]) = (h ++ [c]).drop ((h ++ [c]).length - 5)
  split
  case isTrue => rfl
  case isFalse h5 =>
    have h0 : (h ++ [c]).length - 5 = 0 := by omega
    rw [h0, List.drop_zero]

lemma pushWindow_ne_nil (h : List ℕ) (c : ℕ) : pushWindow h c ≠ [] := by
  show (if 5 < (h ++ [c]).length then (h ++ [c]).drop ((h ++ [c]).length - 5)
        else h ++ [c]) ≠ []
  split
  case isTrue h5 =>
    intro hnil
    have hl := congrArg List.length hnil
    rw [List.length_drop] at hl
    simp at hl
    omega
  case isFalse => simp

lemma lastN_snoc (a : List ℕ) (c : ℕ) :
    lastN 5 (lastN 5 a ++ [c]) = lastN 5 (a ++ [c]) := by
  unfold lastN
  have h1 : a.drop (a.length - 5) ++ [c] = (a ++ [c]).drop (a.length - 5) :=
    (List.drop_append_of_le_length (by omega)).symm
  rw [h1, List.drop_drop, List.length_drop, List.length_append, List.length_singleton]
  congr 1
  omega

lemma smootherRun_append (l : List ℕ) (r : ℕ) :
    smootherRun (l ++ [r]) = sampledUpdate (smootherRun l) r := by
  simp [smootherRun, List.foldl_append]

lemma smootherRun_history (l : List ℕ) :
    (smootherRun l).detection_history = lastN 5 (l.map (fun r => min r 5)) := by
  induction l using List.reverseRecOn with
  | nil => rfl
  | append_singleton a r ih =>
    rw [smootherRun_append, sampledUpdate_history, ih, pushWindow_eq_lastN,
      lastN_snoc, List.map_append]
    rfl

lemma smootherRun_person (l : List ℕ) (hl : l ≠ []) :
    (smootherRun l).person_count = npMedianInt ((smootherRun l).detection_history) := by
  rcases l.eq_nil_or_concat' with rfl | ⟨L, b, rfl⟩
  · exact absurd rfl hl
  · rw [smootherRun_append, sampledUpdate_person, sampledUpdate_history,
      if_pos (pushWindow_ne_nil _ _)]

lemma mem_insertSorted {x a : ℕ} : ∀ {l : List ℕ}, x ∈ insertSorted a l → x = a ∨ x ∈ l := by
  intro l
  induction l with
  | nil => intro h; simpa [insertSorted] using h
  | cons y ys ih =>
    intro h
    rw [insertSorted] at h
    split at h
    · rcases List.mem_cons.1 h with h | h
      · exact Or.inl h
      · exact Or.inr h
    · rcases List.mem_cons.1 h with h | h
      · exact Or.inr (List.mem_cons.2 (Or.inl h))
      · rcases ih h with h | h
        · exact Or.inl h
        · exact Or.inr (List.mem_cons.2 (Or.inr h))

lemma mem_sortList {x : ℕ} : ∀ {l : List ℕ}, x ∈ sortList l → x ∈ l := by
  intro l
  induction l with
  | nil => intro h; simp [sortList] at h
  | cons y ys ih =>
    intro h
    have h' : x ∈ insertSorted y (sortList ys) := h
    rcases mem_insertSorted h' with h | h
    · exact List.mem_cons.2 (Or.inl h)
    · exact List.mem_cons.2 (Or.inr (ih h))

lemma getD_le_five (l : List ℕ) (h : ∀ x ∈ l, x ≤ 5) (i : ℕ) : l.getD i 0 ≤ 5 := by
  by_cases hi : i < l.length
  · rw [List.getD_eq_getElem l 0 hi]
    exact h _ (List.getElem_mem hi)
  · rw [List.getD_eq_default l 0 (by omega)]
    omega

lemma npMedianInt_le_five (l : List ℕ) (h : ∀ x ∈ l, x ≤ 5) : npMedianInt l ≤ 5 := by
  have hs : ∀ x ∈ sortList l, x ≤ 5 := fun x hx => h x (mem_sortList hx)
  show (if (sortList l).length % 2 = 1 then (sortList l).getD ((sortList l).length / 2) 0
        else ((sortList l).getD ((sortList l).length / 2 - 1) 0 +
          (sortList l).getD ((sortList l).length / 2) 0) / 2) ≤ 5
  split
  · exact getD_le_five _ hs _
  · have h1 := getD_le_five _ hs ((sortList l).length / 2 - 1)
    have h2 := getD_le_five _ hs ((sortList l).length / 2)
    omega

lemma window_le_five (l : List ℕ) :
    ∀ x ∈ lastN 5 (l.map (fun r => min r 5)), x ≤ 5 := by
  intro x hx
  unfold lastN at hx
  have hx2 : x ∈ l.map (fun r => min r 5) := List.mem_of_mem_drop hx
  obtain ⟨r, _, rfl⟩ := List.mem_map.1 hx2
  exact Nat.min_le_right r 5

/-- C2 counterexample: feeding raw counts 1 then 2 to the smoother gives the
even window `[1, 2]`; `int(np.median([1, 2]))` truncates 1.5 to 1, while the
claimed round-to-nearest value is 2, so the returned stable count differs
from the claimed median. -/
theorem c2_counterexample :
    (smootherRun [1, 2]).person_count = 1 ∧
    specMedianRoundNearest ((smootherRun [1, 2]).detection_history) = 2 ∧
    ¬((smootherRun [1, 2]).person_count =
        specMedianRoundNearest ((smootherRun [1, 2]).detection_history)) := by
  decide

/-- C2 amended: each observation is clamped to `[0, 5]` before entering the
window; after any nonempty sequence of raw counts the window holds exactly the
last `min 5 n` clamped observations, the returned stable count is their
median — where an even-length window averages the two middle elements and
TRUNCATES toward zero (Python `int()`), not rounds to nearest — and the
stable count is always within `[0, 5]`. -/
theorem c2_smoother_median_truncated (l : List ℕ) (hl : l ≠ []) :
    (smootherRun l).detection_history = lastN 5 (l.map (fun r => min r 5)) ∧
    (smootherRun l).person_count = npMedianInt (lastN 5 (l.map (fun r => min r 5))) ∧
    (smootherRun l).person_count ≤ 5 := by
  refine ⟨smootherRun_history l, ?_, ?_⟩
  · rw [smootherRun_person l hl, smootherRun_history l]
  · rw [smootherRun_person l hl, smootherRun_history l]
    exact npMedianInt_le_five _ (window_le_five l)

/-- Witness for the amended C2 on the concrete observation sequence
`[3, 1, 2, 7, 4, 9]` (seven and nine get clamped to five). -/
theorem c2_witness :
    ([3, 1, 2, 7, 4, 9] : List ℕ) ≠ [] ∧
    ((smootherRun [3, 1, 2, 7, 4, 9]).detection_history =
        lastN 5 ([3, 1, 2, 7, 4, 9].map (fun r => min r 5)) ∧
      (smootherRun [3, 1, 2, 7, 4, 9]).person_count =
        npMedianInt (lastN 5 ([3, 1, 2, 7, 4, 9].map (fun r => min r 5))) ∧
      (smootherRun [3, 1, 2, 7, 4, 9]).person_count ≤ 5) :=
  ⟨by decide, c2_smoother_median_truncated [3, 1, 2, 7, 4, 9] (by decide)⟩
